import Mathlib

/-!
Shallow embedding of the fastapi-celery-project fragment:
`src/project/users/tasks.py` (the `divide` shared task) and
`src/tests/users/test_views.py` (the `test_pytest_setup` smoke test).
Python floats are modelled as exact rationals; non-numeric inputs are
represented by a string value.
-/

/-- Python runtime values relevant to the divide task: integers, floats
(modelled as exact rationals), and a representative non-numeric value. -/
inductive PyVal where
  | int : Int → PyVal
  | float : Rat → PyVal
  | str : String → PyVal
deriving DecidableEq

/-- The two error classes the spec names for the task. -/
inductive PyError where
  | zeroDivisionError
  | typeError
deriving DecidableEq

/-- Whether a value is numeric (int or float). -/
def PyVal.isNumeric : PyVal → Bool
  | .int _ => true
  | .float _ => true
  | .str _ => false

/-- The numeric content of a value, when it has one. -/
def PyVal.toRat : PyVal → Option Rat
  | .int a => some (a : Rat)
  | .float q => some q
  | .str _ => none

/-- Whether a value is of float kind. -/
def PyVal.isFloat : PyVal → Bool
  | .float _ => true
  | _ => false

/-- Python true division `x / y`: on numeric operands it raises
ZeroDivisionError when the divisor is zero and otherwise yields the float
quotient; on any non-numeric operand it raises TypeError. The float value is
carried as the exact rational quotient — an idealization of the binary64
result that is immaterial to error classes, step order and printed output;
f64Div below models the integer division at full float fidelity. -/
def pyDiv : PyVal → PyVal → Except PyError PyVal
  | .int a, .int b =>
      if b = 0 then .error .zeroDivisionError
      else .ok (.float ((a : Rat) / (b : Rat)))
  | .int a, .float b =>
      if b = 0 then .error .zeroDivisionError
      else .ok (.float ((a : Rat) / b))
  | .float a, .int b =>
      if b = 0 then .error .zeroDivisionError
      else .ok (.float (a / (b : Rat)))
  | .float a, .float b =>
      if b = 0 then .error .zeroDivisionError
      else .ok (.float (a / b))
  | _, _ => .error .typeError

/-- Observable steps of one task invocation. -/
inductive Step where
  | print (msg : String)
  | sleep (seconds : Nat)
  | ret (v : PyVal)
  | raise (e : PyError)
deriving DecidableEq

/-- The body of `divide` in src/project/users/tasks.py, as its step trace:
`print('shared task')`, then `time.sleep(5)`, then `return x / y`
(a raising division ends the trace with the raised error). -/
def divide (x y : PyVal) : List Step :=
  Step.print "shared task" :: Step.sleep 5 ::
    (match pyDiv x y with
     | .ok v => [Step.ret v]
     | .error e => [Step.raise e])

/-- The outcome of `divide`: the value returned or the error raised. -/
def divideResult (x y : PyVal) : Except PyError PyVal := pyDiv x y

/-- The diagnostic messages printed along a trace. -/
def prints (t : List Step) : List String :=
  t.filterMap fun s =>
    match s with
    | .print m => some m
    | _ => none

/-- Modelled from the spec: the User entity of project/users/models.py (that
module is not under src/): attributes username, email, and an id assigned by
the persistence layer on insert; id is unset before insertion. -/
structure User where
  username : String
  email : String
  id : Option Nat
deriving DecidableEq

/-- Modelled from the spec: `User(username=..., email=...)` constructs a
record whose id is still unset. -/
def mkUser (username email : String) : User :=
  ⟨username, email, none⟩

/-- Modelled from the spec: the external ORM session, a scoped transactional
unit of work. State: the next identifier to assign, the committed rows, and
whether a transaction block is currently held open. -/
structure DBSession where
  nextId : Nat
  rows : List User
  inTx : Bool
deriving DecidableEq

/-- Modelled from the spec: entering the transaction block. -/
def DBSession.beginTx (s : DBSession) : DBSession :=
  { s with inTx := true }

/-- Modelled from the spec: releasing the transaction scope. -/
def DBSession.endTx (s : DBSession) : DBSession :=
  { s with inTx := false }

/-- Modelled from the spec: `db_session.add(user)` inside a committed
transaction; the persistence layer assigns the next identifier. -/
def DBSession.addUser (s : DBSession) (u : User) : DBSession × User :=
  let u2 : User := ⟨u.username, u.email, some s.nextId⟩
  ({ s with nextId := s.nextId + 1, rows := s.rows ++ [u2] }, u2)

/-- Modelled from the spec: `with db_session.begin():` begins a transaction,
runs the body, and releases the transaction scope on every exit path,
normal or raising. -/
def withBegin {ε α : Type} (s : DBSession)
    (body : DBSession → DBSession × Except ε α) : DBSession × Except ε α :=
  let p := body s.beginTx
  (p.1.endTx, p.2)

/-- Modelled from the spec: `users_router.url_path_for`, the external
router's URL-reversal lookup; it knows the named route "form_example_get". -/
def url_path_for (name : String) : Option String :=
  if name = "form_example_get" then some "/users/form" else none

/-- An HTTP response as the test observes it. -/
structure Response where
  status_code : Nat
deriving DecidableEq

/-- Modelled from the spec: the form_example_get endpoint (its handler is not
under src/): a GET on its resolved path responds with status 200. -/
def clientGet (path : String) : Option Response :=
  if path = "/users/form" then some ⟨200⟩ else none

/-- Outcome of one run of the test. -/
inductive TestResult where
  | passed
  | assertionFailed
  | errored
deriving DecidableEq

/-- The external behaviour the test depends on: the status the endpoint
actually returns, and whether the insert inside the transaction raises. -/
structure TestEnv where
  getStatus : Nat
  insertRaises : Bool
deriving DecidableEq

/-- The insert step of the test under an environment: either the add
succeeds and yields the user with its assigned id, or it raises. -/
def doInsert (env : TestEnv) (s : DBSession) (u : User) :
    DBSession × Except Unit User :=
  if env.insertRaises then (s, .error ())
  else
    let p := s.addUser u
    (p.1, .ok p.2)

/-- The body of `test_pytest_setup` in src/tests/users/test_views.py over the
modelled client, router and session: assert the GET status is 200, then
insert a User inside `with db_session.begin():`, then assert `user.id`. -/
def test_pytest_setup (env : TestEnv) (s : DBSession) :
    DBSession × TestResult :=
  if env.getStatus ≠ 200 then (s, .assertionFailed)
  else
    let u := mkUser "test" "test@example.com"
    let p := withBegin s (fun st => doInsert env st u)
    match p.2 with
    | .error _ => (p.1, .errored)
    | .ok u2 => if u2.id.isSome then (p.1, .passed) else (p.1, .assertionFailed)

/-- Base-2 logarithm by repeated halving, driven by explicit fuel so that it
reduces by kernel computation. -/
def log2Fuel : Nat → Nat → Nat
  | 0, _ => 0
  | fuel + 1, n => if n ≤ 1 then 0 else log2Fuel fuel (n / 2) + 1

/-- Floor of the base-2 logarithm of a positive natural (0 at 0). -/
def natLog2 (n : Nat) : Nat := log2Fuel n n

/-- Round N / D to the nearest integer, ties to even — the IEEE 754 default
rounding — for positive D. -/
def roundMantissa (N D : Nat) : Nat :=
  let q := N / D
  let r := N % D
  if D < 2 * r then q + 1
  else if 2 * r < D then q
  else if q % 2 = 0 then q else q + 1

/-- The binary64 rounding of the positive rational n / d, as a pair (m, e)
standing for m * 2 ^ e: the exponent e scales the quotient into
[2 ^ 52, 2 ^ 53) and the mantissa m is the scaled quotient rounded to
nearest, ties to even. Normal range only: the overflow and subnormal
thresholds of binary64 are not modelled, which is immaterial for the
quotients considered here. -/
def f64MagRep (n d : Nat) : Nat × Int :=
  let s := natLog2 d + 1
  let L : Int := (natLog2 ((n * 2 ^ s) / d) : Int) - (s : Int)
  let e : Int := L - 52
  let N := n * 2 ^ ((-e).toNat)
  let D := d * 2 ^ e.toNat
  (roundMantissa N D, e)

/-- The rational value m * 2 ^ e of a mantissa-exponent pair. -/
def repToRat (m : Nat) (e : Int) : Rat :=
  if 0 ≤ e then (m : Rat) * 2 ^ e.toNat
  else (m : Rat) / 2 ^ (-e).toNat

/-- The binary64 value nearest to the positive rational n / d. -/
def f64Mag (n d : Nat) : Rat :=
  repToRat (f64MagRep n d).1 (f64MagRep n d).2

/-- Python's `x / y` on integers at full float fidelity: the exact quotient
correctly rounded to binary64 (round to nearest, ties to even), refining
pyDiv's exact-rational idealization of the float result. The zero-divisor
guard returns a dummy 0: pyDiv models the ZeroDivisionError raise. -/
def f64Div (a b : Int) : Rat :=
  let n := a.natAbs
  let d := b.natAbs
  if n = 0 ∨ d = 0 then 0
  else if a * b < 0 then - f64Mag n d
  else f64Mag n d

/-- Claim C1: for every numeric x and every numeric non-zero y,
divide(x, y) returns the quotient x / y. -/
theorem divide_returns_quotient (x y : PyVal) (qx qy : Rat)
    (hx : x.toRat = some qx) (hy : y.toRat = some qy) (hy0 : qy ≠ 0) :
    divideResult x y = Except.ok (PyVal.float (qx / qy)) := by
  cases x <;> cases y <;>
    simp_all [PyVal.toRat, divideResult, pyDiv] <;>
    (rintro rfl; simp_all)

/-- Witness for C1 at divide(10, 4). -/
theorem divide_returns_quotient_witness :
    divideResult (PyVal.int 10) (PyVal.int 4) =
      Except.ok (PyVal.float ((10 : Rat) / 4)) :=
  divide_returns_quotient (PyVal.int 10) (PyVal.int 4) 10 4
    (by norm_num [PyVal.toRat]) (by norm_num [PyVal.toRat]) (by norm_num)

/-- Claim C2: for every numeric x, divide(x, 0) fails with the
division-by-zero error and does not return a value. -/
theorem divide_by_zero_raises (x y : PyVal)
    (hx : x.isNumeric = true) (hy : y.toRat = some 0) :
    divideResult x y = Except.error PyError.zeroDivisionError := by
  cases x <;> cases y <;>
    simp_all [PyVal.isNumeric, PyVal.toRat, divideResult, pyDiv]

/-- Witness for C2 at divide(5, 0). -/
theorem divide_by_zero_raises_witness :
    divideResult (PyVal.int 5) (PyVal.int 0) =
      Except.error PyError.zeroDivisionError :=
  divide_by_zero_raises (PyVal.int 5) (PyVal.int 0) rfl
    (by norm_num [PyVal.toRat])

/-- Claim C3: every invocation of divide performs the print, then the
5-unit sleep, then the division; a raising division puts the raise strictly
after the sleep, and a returning one puts the return there. -/
theorem divide_step_order (x y : PyVal) :
    (divide x y).take 2 = [Step.print "shared task", Step.sleep 5] ∧
    (∀ e : PyError, divideResult x y = Except.error e →
      divide x y = [Step.print "shared task", Step.sleep 5, Step.raise e]) ∧
    (∀ v : PyVal, divideResult x y = Except.ok v →
      divide x y = [Step.print "shared task", Step.sleep 5, Step.ret v]) := by
  refine ⟨rfl, ?_, ?_⟩
  · intro e he
    simp only [divideResult] at he
    simp [divide, he]
  · intro v hv
    simp only [divideResult] at hv
    simp [divide, hv]

/-- Witness for C3 at divide(5, 0): the division-by-zero raise comes only
after the print and the sleep. -/
theorem divide_step_order_witness :
    divide (PyVal.int 5) (PyVal.int 0) =
      [Step.print "shared task", Step.sleep 5,
       Step.raise PyError.zeroDivisionError] :=
  (divide_step_order (PyVal.int 5) (PyVal.int 0)).2.1
    PyError.zeroDivisionError (by simp [divideResult, pyDiv])

/-- Claim C4: divide(10, 2) waits the 5-unit sleep and then returns
exactly the float 5.0. -/
theorem divide_ten_two :
    divide (PyVal.int 10) (PyVal.int 2) =
      [Step.print "shared task", Step.sleep 5,
       Step.ret (PyVal.float 5)] := by
  norm_num [divide, pyDiv]

/-- Claim C5: when either input is non-numeric, divide fails with the type
error, propagated uncaught: the trace ends in the raise, no value is
returned. -/
theorem divide_nonnumeric_type_error (x y : PyVal)
    (h : x.isNumeric = false ∨ y.isNumeric = false) :
    divideResult x y = Except.error PyError.typeError ∧
    divide x y = [Step.print "shared task", Step.sleep 5,
      Step.raise PyError.typeError] := by
  cases x <;> cases y <;>
    simp_all [PyVal.isNumeric, divideResult, pyDiv, divide]

/-- Witness for C5 at divide("a", 0). -/
theorem divide_nonnumeric_type_error_witness :
    divideResult (PyVal.str "a") (PyVal.int 0) =
      Except.error PyError.typeError :=
  (divide_nonnumeric_type_error (PyVal.str "a") (PyVal.int 0)
    (Or.inl rfl)).1

/-- Claim C6: a User's id is unset before insertion and non-null after a
committed scoped insert; in particular for
User(username="test", email="test@example.com") inserted inside
`with db_session.begin():`. -/
theorem user_id_set_after_insert (s : DBSession) (u2 : User)
    (h : (withBegin s (fun st =>
            doInsert ⟨200, false⟩ st (mkUser "test" "test@example.com"))).2
          = Except.ok u2) :
    (mkUser "test" "test@example.com").id = none ∧ u2.id ≠ none := by
  refine ⟨rfl, ?_⟩
  simp [withBegin, doInsert, DBSession.addUser, mkUser, DBSession.beginTx,
    DBSession.endTx] at h
  rw [← h]
  simp

/-- Witness for C6 at a concrete session. -/
theorem user_id_set_after_insert_witness :
    (mkUser "test" "test@example.com").id = none ∧
      (⟨"test", "test@example.com", some 1⟩ : User).id ≠ none :=
  user_id_set_after_insert ⟨1, [], false⟩
    ⟨"test", "test@example.com", some 1⟩ rfl

/-- Claim C7: a GET issued to the URL resolved from the named route
"form_example_get" through the router returns a response whose status code
equals 200. -/
theorem get_form_example_status (p : String)
    (h : url_path_for "form_example_get" = some p) :
    ∃ r : Response, clientGet p = some r ∧ r.status_code = 200 := by
  simp [url_path_for] at h
  subst h
  exact ⟨⟨200⟩, rfl, rfl⟩

/-- Witness for C7 at the resolved path. -/
theorem get_form_example_status_witness :
    ∃ r : Response, clientGet "/users/form" = some r ∧ r.status_code = 200 :=
  get_form_example_status "/users/form" rfl

/-- Claim C8: the session's transaction scope is released on every exit path
of the test: any with-begin block ends with the transaction released whatever
its body does, and the test never finishes with the transaction held open,
whatever the endpoint status and whether the insert raises. -/
theorem session_released_all_paths (env : TestEnv) (s : DBSession)
    (h : s.inTx = false) :
    (test_pytest_setup env s).1.inTx = false ∧
    ∀ (ε α : Type) (body : DBSession → DBSession × Except ε α),
      (withBegin s body).1.inTx = false := by
  have relW : ∀ (ε α : Type) (body : DBSession → DBSession × Except ε α),
      (withBegin s body).1.inTx = false := by
    intro ε α body
    simp [withBegin, DBSession.endTx]
  refine ⟨?_, relW⟩
  unfold test_pytest_setup
  split
  · exact h
  · cases hm : (withBegin s (fun st =>
        doInsert env st (mkUser "test" "test@example.com"))).2 with
    | error e =>
        simp only [hm]
        exact relW Unit User (fun st =>
          doInsert env st (mkUser "test" "test@example.com"))
    | ok u2 =>
        simp only [hm]
        split <;>
          exact relW Unit User (fun st =>
            doInsert env st (mkUser "test" "test@example.com"))

/-- Witness for C8 at a concrete environment and session. -/
theorem session_released_all_paths_witness :
    (test_pytest_setup ⟨200, false⟩ ⟨0, [], false⟩).1.inTx = false :=
  (session_released_all_paths ⟨200, false⟩ ⟨0, [], false⟩ rfl).1

/-- The mantissa-exponent pair of 1 / 2: exactly 2 ^ 52 * 2 ^ (-53). -/
lemma f64MagRep_one_two : f64MagRep 1 2 = (4503599627370496, -53) := by
  decide

/-- The mantissa-exponent pair of 10 / 2: exactly 5 * 2 ^ 50 * 2 ^ (-50). -/
lemma f64MagRep_ten_two : f64MagRep 10 2 = (5629499534213120, -50) := by
  decide

/-- The mantissa-exponent pair of 1 / 3: the scaled quotient 2 ^ 54 / 3
rounds down to 6004799503160661. -/
lemma f64MagRep_one_three : f64MagRep 1 3 = (6004799503160661, -54) := by
  decide

/-- The binary64 division 1 / 2 is exact. -/
lemma f64Div_one_two : f64Div 1 2 = (1 : Rat) / 2 := by
  norm_num [f64Div, f64Mag, f64MagRep_one_two, repToRat,
    show Int.toNat 53 = 53 from rfl]

/-- The binary64 division 10 / 2 is exact. -/
lemma f64Div_ten_two : f64Div 10 2 = 5 := by
  norm_num [f64Div, f64Mag, f64MagRep_ten_two, repToRat,
    show Int.toNat 50 = 50 from rfl]

/-- The binary64 division 1 / 3 is the rounded value, a dyadic rational. -/
lemma f64Div_one_three : f64Div 1 3 = (6004799503160661 : Rat) / 2 ^ 54 := by
  norm_num [f64Div, f64Mag, f64MagRep_one_three, repToRat,
    show Int.toNat 54 = 54 from rfl]

/-- Claim C9, counterexample: the universal exactness fails at divide(1, 3):
at float fidelity the result is the correctly rounded
6004799503160661 / 2 ^ 54, not the exact rational quotient 1 / 3. -/
theorem divide_exact_quotient_cx :
    f64Div 1 3 = (6004799503160661 : Rat) / 2 ^ 54 ∧
    f64Div 1 3 ≠ (1 : Rat) / 3 := by
  refine ⟨f64Div_one_three, ?_⟩
  rw [f64Div_one_three]
  norm_num

/-- Claim C9 (amended): divide performs true division, not integer floor
division: for integer inputs with non-zero y the result is of float kind —
a float even when y divides x evenly — and its value is the exact quotient
correctly rounded to binary64: exact at representable quotients, so
divide(1, 2) is 0.5 and not the floor 0, and divide(10, 2) is the float 5.0,
but not exact in general — divide(1, 3) is not 1 / 3. -/
theorem divide_true_division_rounded (a b : Int) (hb : b ≠ 0) :
    (∀ v, divideResult (PyVal.int a) (PyVal.int b) = Except.ok v →
      v.isFloat = true) ∧
    f64Div 1 2 = (1 : Rat) / 2 ∧ f64Div 1 2 ≠ 0 ∧
    f64Div 10 2 = 5 ∧ f64Div 1 3 ≠ (1 : Rat) / 3 := by
  refine ⟨?_, f64Div_one_two, ?_, f64Div_ten_two, ?_⟩
  · intro v hv
    simp [divideResult, pyDiv, hb] at hv
    rw [← hv]
    rfl
  · rw [f64Div_one_two]
    norm_num
  · rw [f64Div_one_three]
    norm_num

/-- Witness for C9 at divide(1, 2). -/
theorem divide_true_division_rounded_witness :
    f64Div 1 2 = (1 : Rat) / 2 :=
  (divide_true_division_rounded 1 2 (by norm_num)).2.1

/-- Claim C10: the diagnostic output of divide is the constant "shared task",
identical across any two invocations: no information about x or y flows into
the printed output. -/
theorem divide_print_constant (x y x2 y2 : PyVal) :
    prints (divide x y) = ["shared task"] ∧
    prints (divide x y) = prints (divide x2 y2) := by
  have key : ∀ a b : PyVal, prints (divide a b) = ["shared task"] := by
    intro a b
    cases hd : pyDiv a b <;> simp [divide, prints, hd]
  exact ⟨key x y, by rw [key x y, key x2 y2]⟩
